import Mathlib

/-!
Shallow embedding of the call/presence backend
(`src/backend/app/api/calls.py`, `src/backend/app/websockets/presence_handler.py`,
`src/backend/app/websockets/connection_manager.py`,
`src/backend/app/websockets/call_handler.py`) in Lean 4, with theorems
checking the natural-language specification against the code.

Conventions of the embedding:
* Database rows are Lean structures; tables are lists of rows, appended in
  insertion order (SQLAlchemy `db.add` + `db.commit`).
* Python dicts keyed by ids (`active_connections`) are association lists with
  dict-assignment semantics (`dictSet`: replace in place, else append).
* Timestamps are naturals (`now` is passed explicitly where the code calls
  `datetime.utcnow()` / relies on a `func.now()` server default).
* WebSocket channels are opaque naturals; delivery is a log of
  (channel, event) pairs appended in send order.
* A Python `AttributeError` (a method called on an object whose class does not
  define it) is `ApiError.attributeError`.  `PresenceManager`
  (presence_handler.py lines 17-96) defines no `send_personal_message`, and
  `ConnectionManager` (connection_manager.py lines 5-21) defines no
  `broadcast`; the calls at calls.py lines 100, 179 and 216 therefore raise
  `AttributeError` at runtime.  Mutations committed before those lines
  (`db.commit()`) survive the exception.
-/

namespace Backend

/-- `CallStatus` enum from `app/db/models.py`. -/
inductive CallStatus where
  | INITIATED
  | PICKED_UP
  | ENDED
deriving DecidableEq, Repr

/-- A row of the `calls` table (`Call` model, models.py lines 66-84).
`user_id` is the creator ("kept for backward compatibility"); `started_at`
has a `func.now()` server default so it is set at insertion time. -/
structure CallRec where
  id : Nat
  user_id : Nat
  caller_id : Nat
  callee_id : Nat
  room_id : String
  status : CallStatus
  started_at : Option Nat
  ended_at : Option Nat
  duration_seconds : Option Int
deriving DecidableEq, Repr

/-- A row of the `call_participants` table (`CallParticipant` model):
call id, user id, role string. -/
structure ParticipantRec where
  call_id : Nat
  user_id : Nat
  role : String
deriving DecidableEq, Repr

/-- The database slice the call/presence code touches: users (ids),
directed `user_connections` rows `(user_id, connected_user_id)`, calls,
call participants, transcripts (`call_id` is unique, so an association
list), and `user_presence` rows. -/
structure DB where
  users : List Nat
  connections : List (Nat × Nat)
  calls : List CallRec
  participants : List ParticipantRec
  transcripts : List (Nat × String)
  presenceRows : List (Nat × Bool)
deriving DecidableEq, Repr

/-- Outbound websocket events produced by the embedded code. -/
inductive Event where
  | incoming_call (call_id caller_id : Nat) (caller_name room_name : String)
  | call_answered (call_id : Nat)
  | presence_update (user_id : Nat) (is_online : Bool)
  | new_connection (user_id : Nat)
  | transcript (text : String) (is_final : Bool)
  | status_msg (message : String)
deriving DecidableEq, Repr

/-- Errors surfaced by the embedded endpoints: an HTTP error response
(`HTTPException(status_code, detail)`) or a Python `AttributeError` escaping
the handler (a method invoked on a class that does not define it). -/
inductive ApiError where
  | http (code : Nat) (detail : String)
  | attributeError (detail : String)
deriving DecidableEq, Repr

/-- Python dict assignment `m[k] = v` on an id-keyed dict kept as an
association list: replace the existing entry in place, else append. -/
def dictSet {α : Type} (m : List (Nat × α)) (k : Nat) (v : α) : List (Nat × α) :=
  if m.any (fun p => p.1 == k) then
    m.map (fun p => if p.1 == k then (k, v) else p)
  else
    m ++ [(k, v)]

/-- Python `del m[k]` guarded by `if k in m` (a no-op when absent). -/
def dictDel {α : Type} (m : List (Nat × α)) (k : Nat) : List (Nat × α) :=
  m.filter (fun p => p.1 != k)

/-- Full state: the database plus the two in-memory registries
(`presence_manager.active_connections`: user id → channel;
`manager.active_connections`: call id → channel) and the delivery log. -/
structure St where
  db : DB
  presenceConns : List (Nat × Nat)
  callConns : List (Nat × Nat)
  events : List (Nat × Event)
deriving DecidableEq, Repr

/-- The bidirectional connection query of `initiate_call` (calls.py lines
58-61): a `UserConnection` row exists with either orientation of the pair. -/
def connectedBidi (db : DB) (a b : Nat) : Bool :=
  db.connections.any (fun p => (p.1 == a && p.2 == b) || (p.1 == b && p.2 == a))

/-- The directed connection query of `invite_to_call` (calls.py lines
153-155): only the orientation (current user → target) is consulted. -/
def connectedDirected (db : DB) (a b : Nat) : Bool :=
  db.connections.any (fun p => p.1 == a && p.2 == b)

/-- `db.query(Call).filter(Call.id == call_id).first()`. -/
def findCall (db : DB) (call_id : Nat) : Option CallRec :=
  db.calls.find? (fun c => c.id == call_id)

/-- `db.query(CallParticipant).filter(call_id == .., user_id == ..).first()`
as a Boolean presence test. -/
def isParticipant (db : DB) (call_id user_id : Nat) : Bool :=
  db.participants.any (fun p => p.call_id == call_id && p.user_id == user_id)

/-- Response of `initiate_call`: `CallInitiateResponse`. -/
structure InitResp where
  room_name : String
  call_id : Nat
deriving DecidableEq, Repr

/-- `initiate_call` (calls.py lines 42-115).  `freshRoom` stands for the
generated `call-<uuid>` token, `freshId` for the id the database assigns to
the inserted row, `now` for the `func.now()` server default of `started_at`.
After committing the call row and the two participant rows, the code calls
`presence_manager.send_personal_message(callee_id, ...)`; `PresenceManager`
defines no such method, so the call raises `AttributeError` and the
`incoming_call` notification is never sent. -/
def initiate_call (st : St) (caller_id callee_id : Nat) (_caller_name : String)
    (roomReq : Option String) (freshRoom : String) (freshId : Nat) (now : Nat) :
    Except ApiError InitResp × St :=
  if !connectedBidi st.db caller_id callee_id then
    (Except.error (ApiError.http 403 "You can only call users in your connections"), st)
  else
    let room_name := roomReq.getD freshRoom
    let newCall : CallRec :=
      { id := freshId, user_id := caller_id, caller_id := caller_id,
        callee_id := callee_id, room_id := room_name,
        status := CallStatus.INITIATED, started_at := some now,
        ended_at := none, duration_seconds := none }
    let db1 := { st.db with calls := st.db.calls ++ [newCall] }
    let db2 := { db1 with participants := db1.participants ++
      [ { call_id := freshId, user_id := caller_id, role := "host" },
        { call_id := freshId, user_id := callee_id, role := "participant" } ] }
    -- `presence_manager.send_personal_message` does not exist: AttributeError
    (Except.error (ApiError.attributeError
        "PresenceManager object has no attribute send_personal_message"),
      { st with db := db2 })

/-- Result of `invite_to_call`: the success JSON messages distinguished. -/
inductive InviteResp where
  | alreadyInCall
  | invitationSent (call_id : Nat)
deriving DecidableEq, Repr

/-- `invite_to_call` (calls.py lines 122-191).  Checks, in source order:
call exists (404), inviter is a participant (403), target user exists (404),
a *directed* connection row (inviter → target) exists (400), target not
already a participant (early no-op success).  On the add path the new
participant row is committed, then
`presence_manager.send_personal_message(request.user_id, ...)` raises
`AttributeError` (the method is not defined on `PresenceManager`). -/
def invite_to_call (st : St) (call_id current_user_id target_user_id : Nat) :
    Except ApiError InviteResp × St :=
  match findCall st.db call_id with
  | none => (Except.error (ApiError.http 404 "Call not found"), st)
  | some call =>
    if !isParticipant st.db call_id current_user_id then
      (Except.error (ApiError.http 403 "Not authorized to invite to this call"), st)
    else if !st.db.users.any (fun u => u == target_user_id) then
      (Except.error (ApiError.http 404 "Target user not found"), st)
    else if !connectedDirected st.db current_user_id target_user_id then
      (Except.error (ApiError.http 400 "User is not in your connections"), st)
    else if isParticipant st.db call_id target_user_id then
      (Except.ok InviteResp.alreadyInCall, st)
    else
      let db1 := { st.db with participants := st.db.participants ++
        [ { call_id := call_id, user_id := target_user_id, role := "participant" } ] }
      -- `presence_manager.send_personal_message` does not exist: AttributeError
      let _ := call.room_id
      (Except.error (ApiError.attributeError
          "PresenceManager object has no attribute send_personal_message"),
        { st with db := db1 })

/-- `answer_call` (calls.py lines 194-218).  No state guard: for any existing
call the status is set to `PICKED_UP` and committed unconditionally, then
`manager.broadcast(call_id, ...)` is called; `ConnectionManager` defines no
`broadcast`, so the handler raises `AttributeError` after the commit and no
`call_answered` event is ever delivered. -/
def answer_call (st : St) (call_id : Nat) : Except ApiError Unit × St :=
  match findCall st.db call_id with
  | none => (Except.error (ApiError.http 404 "Call not found"), st)
  | some _ =>
    let db1 := { st.db with calls := st.db.calls.map (fun c =>
      if c.id == call_id then { c with status := CallStatus.PICKED_UP } else c) }
    -- `manager.broadcast` does not exist: AttributeError
    (Except.error (ApiError.attributeError
        "ConnectionManager object has no attribute broadcast"),
      { st with db := db1 })

/-- Response of `end_call`: the returned `duration_seconds`. -/
structure EndResp where
  duration_seconds : Option Int
deriving DecidableEq, Repr

/-- `end_call` (calls.py lines 221-246).  For any existing call (no state
guard): status := ENDED, ended_at := now; when `started_at` is set,
`duration_seconds := int((ended_at - started_at).total_seconds())` is
recomputed from the *current* now; the (possibly stale) stored
`duration_seconds` is returned otherwise. -/
def end_call (st : St) (call_id : Nat) (now : Nat) : Except ApiError EndResp × St :=
  match findCall st.db call_id with
  | none => (Except.error (ApiError.http 404 "Call not found"), st)
  | some call =>
    let call1 := { call with status := CallStatus.ENDED, ended_at := some now }
    let call2 :=
      match call1.started_at with
      | some s => { call1 with duration_seconds := some ((now : Int) - (s : Int)) }
      | none => call1
    let db1 := { st.db with calls := st.db.calls.map (fun c =>
      if c.id == call_id then call2 else c) }
    (Except.ok { duration_seconds := call2.duration_seconds }, { st with db := db1 })

/-- `PresenceManager.broadcast_presence_update` (presence_handler.py lines
55-86): collect the ids connected to `user_id` in either edge orientation
(initiated first, then received, deduplicated as a Python set insertion
would), and send a `presence_update` event to each one that has a live
presence channel; absent channels are skipped. -/
def connectionsOf (db : DB) (user_id : Nat) : List Nat :=
  let initiated := (db.connections.filter (fun p => p.1 == user_id)).map Prod.snd
  let received := (db.connections.filter (fun p => p.2 == user_id)).map Prod.fst
  (initiated ++ received).eraseDups

/-- The delivery loop of `broadcast_presence_update`: events appended for the
audience, in iteration order, only to users present in `presenceConns`. -/
def presenceDeliver (conns : List (Nat × Nat)) (audience : List Nat)
    (ev : Event) : List (Nat × Event) :=
  audience.foldl (fun acc uid =>
    match conns.lookup uid with
    | some ch => acc ++ [(ch, ev)]
    | none => acc) []

/-- `broadcast_presence_update` as a state transformer: appends the delivered
events to the log (database reads only; no mutation). -/
def broadcast_presence_update (st : St) (user_id : Nat) (is_online : Bool) : St :=
  { st with events := st.events ++
      (presenceDeliver st.presenceConns (connectionsOf st.db user_id)
        (Event.presence_update user_id is_online)) }

/-- `PresenceManager.connect` (presence_handler.py lines 24-39): accept the
websocket, register it as the user's presence channel (dict assignment —
a prior channel for the same user is overwritten, not closed), upsert the
`UserPresence` row to online, and broadcast the presence update. -/
def presence_connect (st : St) (user_id channel : Nat) : St :=
  let st1 := { st with presenceConns := dictSet st.presenceConns user_id channel }
  let st2 := { st1 with db := { st1.db with
    presenceRows := dictSet st1.db.presenceRows user_id true } }
  broadcast_presence_update st2 user_id true

/-- `PresenceManager.disconnect` (presence_handler.py lines 41-53): remove
the registration if present, mark the presence row offline if it exists,
broadcast offline. -/
def presence_disconnect (st : St) (user_id : Nat) : St :=
  let st1 := { st with presenceConns := dictDel st.presenceConns user_id }
  let st2 := { st1 with db := { st1.db with
    presenceRows := st1.db.presenceRows.map (fun p =>
      if p.1 == user_id then (p.1, false) else p) } }
  broadcast_presence_update st2 user_id false

/-- Admission check of the call-channel endpoint (call_handler.py line 29):
`db.query(Call).filter(Call.id == call_id, Call.user_id == int(user_info.sub)).first()`
— the channel is admitted iff a call row exists whose id is `call_id` AND
whose `user_id` (creator) is the authenticated principal. -/
def wsCallAdmit (db : DB) (principal call_id : Nat) : Bool :=
  db.calls.any (fun c => c.id == call_id && c.user_id == principal)

/-- `ConnectionManager.connect` (connection_manager.py lines 9-11): accept
and register under the call id by dict assignment — a later connect for the
same call replaces the earlier channel. -/
def manager_connect (conns : List (Nat × Nat)) (call_id websocket : Nat) :
    List (Nat × Nat) :=
  dictSet conns call_id websocket

/-- Inbound happenings on an admitted call channel: the three client message
kinds of call_handler.py, a `(text, is_final)` callback invocation from the
external realtime transcriber (`on_transcript`, lines 39-48), and an abrupt
`WebSocketDisconnect`. -/
inductive ChanEvent where
  | start
  | audio (data : String)
  | stop
  | fragment (text : String) (is_final : Bool)
  | disconnect
deriving DecidableEq, Repr

/-- Per-channel loop state of `websocket_endpoint`: whether a transcriber is
live (`transcriber` non-None), the `transcript_buffer` of finalized
fragments, the `transcripts` table, and events sent to this websocket. -/
structure ChanSt where
  transcriber : Bool
  buffer : List String
  transcripts : List (Nat × String)
  sent : List Event
deriving DecidableEq, Repr

/-- The transcript save block (call_handler.py lines 75-81 and 90-97):
`" ".join(transcript_buffer)`, then update the existing `Transcript` row for
the call or insert a new one (replace-if-exists). -/
def saveTranscript (transcripts : List (Nat × String)) (call_id : Nat)
    (buffer : List String) : List (Nat × String) :=
  dictSet transcripts call_id (String.intercalate " " buffer)

/-- One iteration of the `websocket_endpoint` message loop plus the
`on_transcript` callback (call_handler.py lines 39-83):
* `start_transcription`: create the transcriber if absent, always send the
  "Transcription started" status;
* `audio`: forwarded to the transcriber, no local state change;
* `fragment text is_final` (the `on_transcript` callback): append to
  `transcript_buffer` when final, always send the transcript event;
* `stop_transcription`: drop the transcriber if live, save
  `" ".join(transcript_buffer)` (replace-if-exists), send the stopped status
  (the buffer itself is not cleared);
* `disconnect` is handled by `runChan` below. -/
def stepChan (call_id : Nat) (s : ChanSt) : ChanEvent → ChanSt
  | ChanEvent.start =>
    { s with transcriber := true,
             sent := s.sent ++ [Event.status_msg "Transcription started"] }
  | ChanEvent.audio _ => s
  | ChanEvent.fragment text is_final =>
    { s with buffer := if is_final then s.buffer ++ [text] else s.buffer,
             sent := s.sent ++ [Event.transcript text is_final] }
  | ChanEvent.stop =>
    { s with transcriber := false,
             transcripts := saveTranscript s.transcripts call_id s.buffer,
             sent := s.sent ++ [Event.status_msg "Transcription stopped and saved"] }
  | ChanEvent.disconnect => s

/-- The `websocket_endpoint` loop over a sequence of channel events.  An
abrupt `WebSocketDisconnect` ends the loop; its handler (lines 85-97) closes
the transcriber and, when one was live AND the buffer is non-empty, saves
the joined buffer (replace-if-exists).  Events after a disconnect never
happen on this channel and are ignored. -/
def runChan (call_id : Nat) (s : ChanSt) : List ChanEvent → ChanSt
  | [] => s
  | ChanEvent.disconnect :: _ =>
    if s.transcriber && !s.buffer.isEmpty then
      { s with transcriber := false,
               transcripts := saveTranscript s.transcripts call_id s.buffer }
    else
      { s with transcriber := false }
  | e :: rest => runChan call_id (stepChan call_id s e) rest

/-- The buffered final fragments of a run: the texts of the `fragment`
events flagged final, in order. -/
def finalsOf (frags : List (String × Bool)) : List String :=
  frags.filterMap (fun p => if p.2 then some p.1 else none)

/-! ## Concrete scenario states used by the claim theorems -/

/-- Concrete scenario for C1: users 1 and 2 share the connection edge
`(1, 2)`; user 2 is online on presence with live channel 42. -/
def stScenario1 : St :=
  { db := { users := [1, 2], connections := [(1, 2)], calls := [],
            participants := [], transcripts := [], presenceRows := [] },
    presenceConns := [(2, 42)], callConns := [], events := [] }

/-- Concrete scenario for C2: call 5 exists in state INITIATED with
participants 1 (host) and 2, and a live call channel 99 is registered for
call 5 in the `ConnectionManager`. -/
def stScenario2 : St :=
  { db := { users := [1, 2], connections := [(1, 2)],
            calls := [{ id := 5, user_id := 1, caller_id := 1, callee_id := 2,
                        room_id := "r", status := CallStatus.INITIATED,
                        started_at := some 10, ended_at := none,
                        duration_seconds := none }],
            participants := [⟨5, 1, "host"⟩, ⟨5, 2, "participant"⟩],
            transcripts := [], presenceRows := [] },
    presenceConns := [], callConns := [(5, 99)], events := [] }

/-- Concrete state for the C7 witness: users 1 and 2 with no edges. -/
def stScenario7 : St :=
  { db := { users := [1, 2], connections := [], calls := [],
            participants := [], transcripts := [], presenceRows := [] },
    presenceConns := [], callConns := [], events := [] }

/-- Concrete state for C3: call 1 in state INITIATED, started at time 100. -/
def stScenario3 : St :=
  { db := { users := [1, 2], connections := [(1, 2)],
            calls := [{ id := 1, user_id := 1, caller_id := 1, callee_id := 2,
                        room_id := "r", status := CallStatus.INITIATED,
                        started_at := some 100, ended_at := none,
                        duration_seconds := none }],
            participants := [], transcripts := [], presenceRows := [] },
    presenceConns := [], callConns := [], events := [] }

/-- Concrete state for C4: call 3 already in the terminal state ENDED. -/
def stScenario4 : St :=
  { db := { users := [1, 2], connections := [(1, 2)],
            calls := [{ id := 3, user_id := 1, caller_id := 1, callee_id := 2,
                        room_id := "r", status := CallStatus.ENDED,
                        started_at := some 10, ended_at := some 20,
                        duration_seconds := some 10 }],
            participants := [], transcripts := [], presenceRows := [] },
    presenceConns := [], callConns := [], events := [] }

/-- Concrete state for C6: call 1 with participants 1 (host) and 2; the only
connection edge is `(3, 1)` — target user 3 is symmetrically connected to
participant 1, but no edge is oriented from 1 to 3. -/
def stScenario6 : St :=
  { db := { users := [1, 2, 3], connections := [(3, 1)],
            calls := [{ id := 1, user_id := 1, caller_id := 1, callee_id := 2,
                        room_id := "r", status := CallStatus.INITIATED,
                        started_at := some 10, ended_at := none,
                        duration_seconds := none }],
            participants := [⟨1, 1, "host"⟩, ⟨1, 2, "participant"⟩],
            transcripts := [], presenceRows := [] },
    presenceConns := [], callConns := [], events := [] }

/-- Concrete state for the C9 witness: call 1 with participants 1 and 2,
directed edge `(1, 3)`, target 3 not yet in the call. -/
def stScenario9 : St :=
  { db := { users := [1, 2, 3], connections := [(1, 3)],
            calls := [{ id := 1, user_id := 1, caller_id := 1, callee_id := 2,
                        room_id := "r", status := CallStatus.INITIATED,
                        started_at := some 10, ended_at := none,
                        duration_seconds := none }],
            participants := [⟨1, 1, "host"⟩, ⟨1, 2, "participant"⟩],
            transcripts := [], presenceRows := [] },
    presenceConns := [], callConns := [], events := [] }

/-- Empty starting state for the C5 witness. -/
def stScenario5 : St :=
  { db := { users := [1], connections := [], calls := [],
            participants := [], transcripts := [], presenceRows := [] },
    presenceConns := [], callConns := [], events := [] }

/-- Initial per-connection loop state of `websocket_endpoint`
(call_handler.py lines 36-37): no transcriber, empty `transcript_buffer`,
whatever transcripts the database currently holds. -/
def chanInit (prior : List (Nat × String)) : ChanSt :=
  { transcriber := false, buffer := [], transcripts := prior, sent := [] }

/-- The fragment sequence of the spec's worked example: interims "hel",
"hello" interleaved with finals "Hello", "world". -/
def fragsScenario8 : List (String × Bool) :=
  [("hel", false), ("Hello", true), ("hello", false), ("world", true)]

/-- Database for the C10 witness: call 5 was created by user 1
(`user_id = 1`) with callee 2. -/
def dbScenario10 : DB :=
  { users := [1, 2], connections := [(1, 2)],
    calls := [{ id := 5, user_id := 1, caller_id := 1, callee_id := 2,
                room_id := "r", status := CallStatus.INITIATED,
                started_at := some 10, ended_at := none,
                duration_seconds := none }],
    participants := [], transcripts := [], presenceRows := [] }

end Backend

deriving instance DecidableEq for Except

namespace Backend

/-! ## Helper lemmas about the dict model -/

theorem lookup_replace {α : Type} (m : List (Nat × α)) (k : Nat) (v : α)
    (h : m.any (fun p => p.1 == k) = true) :
    (m.map (fun p => if p.1 == k then (k, v) else p)).lookup k = some v := by
  induction m with
  | nil => simp at h
  | cons a rest ih =>
    obtain ⟨ak, av⟩ := a
    by_cases hk : ak = k
    · subst hk
      rw [List.map_cons, if_pos (by simp)]
      simp [List.lookup]
    · have hk' : (ak == k) = false := beq_false_of_ne hk
      have hk2 : (k == ak) = false := beq_false_of_ne (Ne.symm hk)
      have hrest : rest.any (fun p => p.1 == k) = true := by
        simpa [List.any_cons, hk'] using h
      rw [List.map_cons, if_neg (by simp [hk'])]
      simpa [List.lookup, hk2] using ih hrest

theorem lookup_append_single {α : Type} (m : List (Nat × α)) (k : Nat) (v : α)
    (h : m.any (fun p => p.1 == k) = false) :
    (m ++ [(k, v)]).lookup k = some v := by
  induction m with
  | nil => simp [List.lookup]
  | cons a rest ih =>
    obtain ⟨ak, av⟩ := a
    simp only [List.any_cons, Bool.or_eq_false_iff] at h
    have hk2 : (k == ak) = false := by
      rcases h with ⟨h1, _⟩
      exact beq_false_of_ne (Ne.symm (by simpa using h1))
    simpa [List.lookup, hk2] using ih h.2

/-- Dict assignment then lookup at the same key yields the assigned value. -/
theorem lookup_dictSet {α : Type} (m : List (Nat × α)) (k : Nat) (v : α) :
    (dictSet m k v).lookup k = some v := by
  unfold dictSet
  by_cases h : m.any (fun p => p.1 == k) = true
  · simpa [h] using lookup_replace m k v h
  · have h' := Bool.eq_false_iff.mpr h
    simpa [h'] using lookup_append_single m k v h'

/-- An entry of `dictSet m k v` whose key is `k` carries the value `v`:
dict assignment leaves no stale value behind at its key. -/
theorem mem_dictSet_eq_key {α : Type} {m : List (Nat × α)} {k : Nat} {v w : α}
    (h : (k, w) ∈ dictSet m k v) : w = v := by
  unfold dictSet at h
  by_cases ha : m.any (fun p => p.1 == k) = true
  · simp only [ha, if_true, List.mem_map] at h
    obtain ⟨p, hp, hpe⟩ := h
    by_cases hpk : p.1 = k
    · rw [if_pos (beq_iff_eq.mpr hpk)] at hpe
      exact (congrArg Prod.snd hpe).symm
    · rw [if_neg (by simp [hpk])] at hpe
      exact absurd (congrArg Prod.fst hpe) hpk
  · have ha' := Bool.eq_false_iff.mpr ha
    rw [if_neg (by simp [ha'])] at h
    rcases List.mem_append.mp h with h | h
    · exact absurd (List.any_eq_true.mpr ⟨(k, w), h, by simp⟩) ha
    · exact congrArg Prod.snd (List.mem_singleton.mp h)

/-- An entry of `dictSet m k v` whose key differs from `k` was already in
`m`: dict assignment touches no other key. -/
theorem mem_dictSet_ne_key {α : Type} {m : List (Nat × α)} {k k' : Nat} {v w : α}
    (h : (k', w) ∈ dictSet m k v) (hne : k' ≠ k) : (k', w) ∈ m := by
  unfold dictSet at h
  by_cases ha : m.any (fun p => p.1 == k) = true
  · simp only [ha, if_true, List.mem_map] at h
    obtain ⟨p, hp, hpe⟩ := h
    by_cases hpk : p.1 = k
    · rw [if_pos (beq_iff_eq.mpr hpk)] at hpe
      exact absurd (congrArg Prod.fst hpe).symm hne
    · rw [if_neg (by simp [hpk])] at hpe
      exact hpe ▸ hp
  · have ha' := Bool.eq_false_iff.mpr ha
    rw [if_neg (by simp [ha'])] at h
    rcases List.mem_append.mp h with h | h
    · exact h
    · exact absurd (congrArg Prod.fst (List.mem_singleton.mp h)) hne

/-- A successful `List.lookup` exhibits a member pair. -/
theorem mem_of_lookup_some {α : Type} {m : List (Nat × α)} {k : Nat} {v : α}
    (h : m.lookup k = some v) : (k, v) ∈ m := by
  induction m with
  | nil => simp [List.lookup] at h
  | cons a rest ih =>
    obtain ⟨ak, av⟩ := a
    by_cases hk : k = ak
    · subst hk
      simp only [List.lookup, beq_self_eq_true] at h
      obtain rfl := Option.some.inj h
      exact List.mem_cons_self _ _
    · simp only [List.lookup, beq_false_of_ne hk] at h
      exact List.mem_cons_of_mem _ (ih h)

/-- `List.find?` over a list mapped by a keyed in-place update: if the
search finds `c` and the update preserves the id, the search over the
updated list finds `f c`.  This is the shape of every
`db.query(Call).filter(id == ..).first()` read after a commit of
`st.db.calls.map (fun c => if c.id == cid then .. else c)`. -/
theorem find?_update_of_found (l : List CallRec) (cid : Nat) (f : CallRec → CallRec)
    (c : CallRec) (hf : (f c).id = c.id)
    (h : l.find? (fun x => x.id == cid) = some c) :
    (l.map (fun x => if x.id == cid then f x else x)).find? (fun x => x.id == cid)
      = some (f c) := by
  induction l with
  | nil => simp at h
  | cons a rest ih =>
    by_cases ha : a.id = cid
    · rw [List.find?_cons_of_pos _ (by simp [ha])] at h
      obtain rfl := Option.some.inj h
      rw [List.map_cons, if_pos (by simp [ha])]
      exact List.find?_cons_of_pos _ (by simp [hf, ha])
    · rw [List.find?_cons_of_neg _ (by simp [ha])] at h
      rw [List.map_cons, if_neg (by simp [ha])]
      rw [List.find?_cons_of_neg _ (by simp [ha])]
      exact ih h

/-! ## Claim C1 -/

/-- C1: the claim says the callee receives exactly one `incoming_call` event.
In the code, `initiate_call` commits the call record and the two participant
rows and then calls `presence_manager.send_personal_message(callee_id, ...)`
— a method `PresenceManager` does not define — so the handler raises
`AttributeError`: the call record exists, the callee's live presence channel
(42) receives zero events, and the request fails after the commit. -/
theorem initiate_call_crashes_before_notify :
    stScenario1.presenceConns.lookup 2 = some 42 ∧
    connectedBidi stScenario1.db 1 2 = true ∧
    (initiate_call stScenario1 1 2 "alice" none "room-abc" 7 100).1 =
      Except.error (ApiError.attributeError
        "PresenceManager object has no attribute send_personal_message") ∧
    (initiate_call stScenario1 1 2 "alice" none "room-abc" 7 100).2.events = [] ∧
    findCall (initiate_call stScenario1 1 2 "alice" none "room-abc" 7 100).2.db 7 =
      some { id := 7, user_id := 1, caller_id := 1, callee_id := 2,
             room_id := "room-abc", status := CallStatus.INITIATED,
             started_at := some 100, ended_at := none, duration_seconds := none } :=
  ⟨rfl, rfl, rfl, rfl, rfl⟩

/-! ## Claim C2 -/

/-- C2: the claim says exactly one `call_answered` broadcast fires per state
change and is delivered to live call channels.  In the code, `answer_call`
commits `status = PICKED_UP` and then calls `manager.broadcast(call_id, ...)`
— a method `ConnectionManager` does not define — so every call to `answer`
raises `AttributeError` after the commit: the state is PICKED_UP after both
calls, but zero `call_answered` events are ever delivered, even though a
live call channel (99) is registered. -/
theorem answer_call_crashes_before_broadcast :
    stScenario2.callConns.lookup 5 = some 99 ∧
    (answer_call stScenario2 5).1 =
      Except.error (ApiError.attributeError
        "ConnectionManager object has no attribute broadcast") ∧
    (findCall (answer_call stScenario2 5).2.db 5).map CallRec.status =
      some CallStatus.PICKED_UP ∧
    (answer_call (answer_call stScenario2 5).2 5).1 =
      Except.error (ApiError.attributeError
        "ConnectionManager object has no attribute broadcast") ∧
    (findCall (answer_call (answer_call stScenario2 5).2 5).2.db 5).map CallRec.status =
      some CallStatus.PICKED_UP ∧
    (answer_call (answer_call stScenario2 5).2 5).2.events = [] :=
  ⟨rfl, rfl, rfl, rfl, rfl, rfl⟩

/-! ## Claim C7 -/

/-- C7: call initiation between two users with no connection edge in either
orientation fails with the 403 authorization error and leaves the entire
state — in particular the calls table — unchanged. -/
theorem initiate_call_no_edge_rejected (st : St) (caller callee : Nat)
    (nm : String) (roomReq : Option String) (fr : String) (fid now : Nat)
    (h : connectedBidi st.db caller callee = false) :
    initiate_call st caller callee nm roomReq fr fid now =
      (Except.error (ApiError.http 403 "You can only call users in your connections"),
        st) := by
  unfold initiate_call
  simp [h]

/-- Witness for C7 at users 1 and 2 with an empty edge table. -/
theorem initiate_call_no_edge_rejected_witness :
    connectedBidi stScenario7.db 1 2 = false ∧
    initiate_call stScenario7 1 2 "alice" none "room-x" 3 0 =
      (Except.error (ApiError.http 403 "You can only call users in your connections"),
        stScenario7) :=
  ⟨rfl, initiate_call_no_edge_rejected stScenario7 1 2 "alice" none "room-x" 3 0 rfl⟩

/-! ## Claim C3 -/

/-- Counterexample to C3: ending call 1 at time 150 returns duration 50 and
leaves the call ENDED; ending the now-ENDED call again at time 200 returns
duration 100 ≠ 50 and overwrites `ended_at` from 150 to 200 — the repeated
`end` neither returns the first duration nor avoids duplicate side effects. -/
theorem end_call_repeat_changes_duration_cex :
    (end_call stScenario3 1 150).1 = Except.ok { duration_seconds := some 50 } ∧
    (findCall (end_call stScenario3 1 150).2.db 1).map CallRec.status =
      some CallStatus.ENDED ∧
    (end_call (end_call stScenario3 1 150).2 1 200).1 =
      Except.ok { duration_seconds := some 100 } ∧
    (end_call (end_call stScenario3 1 150).2 1 200).1 ≠
      (end_call stScenario3 1 150).1 ∧
    (findCall (end_call stScenario3 1 150).2.db 1).map CallRec.ended_at =
      some (some 150) ∧
    (findCall (end_call (end_call stScenario3 1 150).2 1 200).2.db 1).map
      CallRec.ended_at = some (some 200) := by
  decide

/-- C3 amended: `end` on an existing call — in any state, in particular one
already ENDED — succeeds and RECOMPUTES: it overwrites `ended_at` with the
current time and, since `started_at` is set, returns duration `now −
started_at` computed from the new now, not the previously stored duration. -/
theorem end_call_recomputes_duration (st : St) (cid now s : Nat) (c : CallRec)
    (hc : findCall st.db cid = some c) (hs : c.started_at = some s) :
    (end_call st cid now).1 =
      Except.ok { duration_seconds := some ((now : Int) - (s : Int)) } ∧
    findCall (end_call st cid now).2.db cid =
      some { c with
        status := CallStatus.ENDED,
        started_at := some s,
        ended_at := some now,
        duration_seconds := some ((now : Int) - (s : Int)) } := by
  unfold end_call
  rw [hc]
  simp only [hs]
  constructor
  · trivial
  · simp only [findCall]
    exact find?_update_of_found st.db.calls cid
      (fun _ => { c with
        status := CallStatus.ENDED,
        started_at := some s,
        ended_at := some now,
        duration_seconds := some ((now : Int) - (s : Int)) }) c rfl hc

/-- Witness for the amended C3 on the already-ENDED call of the
counterexample state: the second `end` at time 200 returns 200 − 100. -/
theorem end_call_recomputes_duration_witness :
    (end_call (end_call stScenario3 1 150).2 1 200).1 =
      Except.ok { duration_seconds := some ((200 : Int) - (100 : Int)) } :=
  (end_call_recomputes_duration (end_call stScenario3 1 150).2 1 200 100
    { id := 1, user_id := 1, caller_id := 1, callee_id := 2, room_id := "r",
      status := CallStatus.ENDED, started_at := some 100, ended_at := some 150,
      duration_seconds := some 50 } rfl rfl).1

/-! ## Claim C4 -/

/-- Counterexample to C4: `answer` on call 3, which is in state ENDED, does
not fail with an InvalidStateError leaving the state unchanged — it commits
the transition ENDED → PICKED_UP (and the request then dies with the
AttributeError of the broadcast step, not a structured state error). -/
theorem answer_call_from_ended_cex :
    (findCall stScenario4.db 3).map CallRec.status = some CallStatus.ENDED ∧
    (findCall (answer_call stScenario4 3).2.db 3).map CallRec.status =
      some CallStatus.PICKED_UP ∧
    (findCall (answer_call stScenario4 3).2.db 3).map CallRec.status ≠
      (findCall stScenario4.db 3).map CallRec.status ∧
    (answer_call stScenario4 3).1 =
      Except.error (ApiError.attributeError
        "ConnectionManager object has no attribute broadcast") := by
  decide

/-- C4 amended: `answer_call` performs no state check at all: for every
existing call, whatever its current state (INITIATED, PICKED_UP or ENDED),
it commits `status := PICKED_UP`; it never fails with InvalidStateError —
the only structured failure is 404 for a missing call, and on the existing-
call path the request fails with the broadcast AttributeError only after
the state change is committed. -/
theorem answer_call_unconditional_pickup (st : St) (cid : Nat) (c : CallRec)
    (hc : findCall st.db cid = some c) :
    (answer_call st cid).1 =
      Except.error (ApiError.attributeError
        "ConnectionManager object has no attribute broadcast") ∧
    findCall (answer_call st cid).2.db cid =
      some { c with status := CallStatus.PICKED_UP } ∧
    (answer_call st cid).2.events = st.events := by
  unfold answer_call
  rw [hc]
  refine ⟨rfl, ?_, rfl⟩
  simp only [findCall]
  exact find?_update_of_found st.db.calls cid
    (fun x => { x with status := CallStatus.PICKED_UP }) c rfl hc

/-- Witness for the amended C4 on the ENDED call 3 of `stScenario4`. -/
theorem answer_call_unconditional_pickup_witness :
    findCall (answer_call stScenario4 3).2.db 3 =
      some { id := 3, user_id := 1, caller_id := 1, callee_id := 2,
             room_id := "r", status := CallStatus.PICKED_UP,
             started_at := some 10, ended_at := some 20,
             duration_seconds := some 10 } :=
  (answer_call_unconditional_pickup stScenario4 3
    { id := 3, user_id := 1, caller_id := 1, callee_id := 2, room_id := "r",
      status := CallStatus.ENDED, started_at := some 10, ended_at := some 20,
      duration_seconds := some 10 } rfl).2.1

/-! ## Claim C6 -/

/-- Counterexample to C6: the call and target user 3 exist, and target 3 IS
connection-graph-authorized with participant 1 under the symmetric check
(edge `(3, 1)` exists), yet the invite of 3 by participant 1 fails — and
with a 400 error, not the 403 of the AuthorizationError taxonomy — because
the code consults only the one-directional edge (inviter → target). -/
theorem invite_reverse_edge_rejected_cex :
    connectedBidi stScenario6.db 1 3 = true ∧
    (findCall stScenario6.db 1).isSome = true ∧
    stScenario6.db.users.any (fun u => u == 3) = true ∧
    isParticipant stScenario6.db 1 1 = true ∧
    (invite_to_call stScenario6 1 1 3).1 =
      Except.error (ApiError.http 400 "User is not in your connections") ∧
    (invite_to_call stScenario6 1 1 3).2 = stScenario6 := by
  decide

/-- C6 amended: the invite authorization is a ONE-directional check against
the inviting user specifically: when the call exists, the inviter is a
participant and the target user exists, the invite is rejected — with a 400
error, leaving the state unchanged — exactly when no edge oriented (inviter
→ target) exists, regardless of any reverse edge; missing call or target
still yield 404. -/
theorem invite_requires_directed_edge (st : St) (cid inviter target : Nat)
    (c : CallRec) (hc : findCall st.db cid = some c)
    (hp : isParticipant st.db cid inviter = true)
    (hu : st.db.users.any (fun u => u == target) = true)
    (hd : connectedDirected st.db inviter target = false) :
    invite_to_call st cid inviter target =
      (Except.error (ApiError.http 400 "User is not in your connections"), st) := by
  unfold invite_to_call
  rw [hc]
  simp [hp, hu, hd]

/-- Witness for the amended C6 on `stScenario6`: inviter 1, target 3, only
the reverse edge `(3, 1)` present. -/
theorem invite_requires_directed_edge_witness :
    invite_to_call stScenario6 1 1 3 =
      (Except.error (ApiError.http 400 "User is not in your connections"),
        stScenario6) :=
  invite_requires_directed_edge stScenario6 1 1 3
    { id := 1, user_id := 1, caller_id := 1, callee_id := 2, room_id := "r",
      status := CallStatus.INITIATED, started_at := some 10, ended_at := none,
      duration_seconds := none } rfl rfl rfl rfl

/-! ## Claim C9 -/

/-- C9: under the preconditions of a first successful participant insertion
(call exists, inviter is a participant, target exists and is
directed-connected to the inviter, target not yet a participant), after the
first invite the target has exactly one participant row; the second,
identical invite returns the "already in the call" no-op success and leaves
the state untouched. -/
theorem invite_twice_single_participant (st : St) (cid inviter target : Nat)
    (c : CallRec) (hc : findCall st.db cid = some c)
    (hp : isParticipant st.db cid inviter = true)
    (hu : st.db.users.any (fun u => u == target) = true)
    (hd : connectedDirected st.db inviter target = true)
    (ht : isParticipant st.db cid target = false) :
    ((invite_to_call st cid inviter target).2.db.participants.countP
        (fun p => p.call_id == cid && p.user_id == target)) = 1 ∧
    (invite_to_call (invite_to_call st cid inviter target).2 cid inviter target).1 =
      Except.ok InviteResp.alreadyInCall ∧
    (invite_to_call (invite_to_call st cid inviter target).2 cid inviter target).2 =
      (invite_to_call st cid inviter target).2 := by
  have h1 : invite_to_call st cid inviter target =
      (Except.error (ApiError.attributeError
          "PresenceManager object has no attribute send_personal_message"),
        { st with db := { st.db with participants := st.db.participants ++
          [{ call_id := cid, user_id := target, role := "participant" }] } }) := by
    unfold invite_to_call
    rw [hc]
    simp [hp, hu, hd, ht]
  rw [h1]
  have h0 : st.db.participants.countP
      (fun p => p.call_id == cid && p.user_id == target) = 0 := by
    unfold isParticipant at ht
    rw [List.any_eq_false] at ht
    rw [List.countP_eq_zero]
    exact fun a ha => by simpa using ht a ha
  refine ⟨?_, ?_⟩
  · simp [List.countP_append, h0, List.countP_cons]
  · have hc2 : findCall ({ st.db with participants := st.db.participants ++
        [{ call_id := cid, user_id := target, role := "participant" }] } : DB) cid =
        some c := hc
    have hp2 : isParticipant ({ st.db with participants := st.db.participants ++
        [{ call_id := cid, user_id := target, role := "participant" }] } : DB)
        cid inviter = true := by
      unfold isParticipant at hp ⊢
      simp [List.any_append, hp]
    have ht2 : isParticipant ({ st.db with participants := st.db.participants ++
        [{ call_id := cid, user_id := target, role := "participant" }] } : DB)
        cid target = true := by
      unfold isParticipant
      simp [List.any_append]
    have hd2 : connectedDirected ({ st.db with participants := st.db.participants ++
        [{ call_id := cid, user_id := target, role := "participant" }] } : DB)
        inviter target = true := hd
    constructor
    · unfold invite_to_call
      rw [hc2]
      simp [hp2, (hu : st.db.users.any (fun u => u == target) = true), ht2, hd2]
    · unfold invite_to_call
      rw [hc2]
      simp [hp2, (hu : st.db.users.any (fun u => u == target) = true), ht2, hd2]

/-- Witness for C9: participant 1 invites user 3 twice on `stScenario9`. -/
theorem invite_twice_single_participant_witness :
    ((invite_to_call stScenario9 1 1 3).2.db.participants.countP
        (fun p => p.call_id == 1 && p.user_id == 3)) = 1 ∧
    (invite_to_call (invite_to_call stScenario9 1 1 3).2 1 1 3).1 =
      Except.ok InviteResp.alreadyInCall ∧
    (invite_to_call (invite_to_call stScenario9 1 1 3).2 1 1 3).2 =
      (invite_to_call stScenario9 1 1 3).2 :=
  invite_twice_single_participant stScenario9 1 1 3
    { id := 1, user_id := 1, caller_id := 1, callee_id := 2, room_id := "r",
      status := CallStatus.INITIATED, started_at := some 10, ended_at := none,
      duration_seconds := none } rfl rfl rfl rfl rfl

/-! ## Claim C5 -/

/-- Every channel that receives an event during the delivery loop of
`broadcast_presence_update` is a currently registered presence channel:
the loop sends only via `self.active_connections[connected_user_id]`. -/
theorem presenceDeliver_channel_registered (conns : List (Nat × Nat))
    (ev : Event) :
    ∀ (audience : List Nat) (acc : List (Nat × Event)) (ch : Nat) (e : Event),
    (ch, e) ∈ audience.foldl (fun acc uid =>
        match conns.lookup uid with
        | some c => acc ++ [(c, ev)]
        | none => acc) acc →
    (ch, e) ∈ acc ∨ ∃ uid, (uid, ch) ∈ conns := by
  intro audience
  induction audience with
  | nil => intro acc ch e h; exact Or.inl h
  | cons a rest ih =>
    intro acc ch e h
    simp only [List.foldl_cons] at h
    rcases ih _ ch e h with hacc | hex
    · cases hl : conns.lookup a with
      | none => rw [hl] at hacc; exact Or.inl hacc
      | some c =>
        rw [hl] at hacc
        rcases List.mem_append.mp hacc with h1 | h1
        · exact Or.inl h1
        · obtain rfl := congrArg Prod.fst (List.mem_singleton.mp h1)
          exact Or.inr ⟨a, mem_of_lookup_some hl⟩
    · exact Or.inr hex

/-- C5: connecting a second presence channel `c2` for user `u` makes `c2`
the user's sole registered presence connection (the registry lookup yields
`c2`, and every registry entry for `u` carries `c2`), and provided the
evicted channel `c1` was fresh (not registered for any other user), no
subsequent `broadcast_presence_update` — the code's only send path —
delivers any event on `c1`. -/
theorem presence_reconnect_evicts_prior (st : St) (u c1 c2 : Nat)
    (hne : c1 ≠ c2)
    (hfresh : c1 ∉ st.presenceConns.map Prod.snd) :
    ((presence_connect (presence_connect st u c1) u c2).presenceConns.lookup u
      = some c2) ∧
    (∀ ch, (u, ch) ∈ (presence_connect (presence_connect st u c1) u c2).presenceConns
      → ch = c2) ∧
    (∀ (v : Nat) (b : Bool) (ch : Nat) (e : Event),
      (ch, e) ∈ presenceDeliver
        (presence_connect (presence_connect st u c1) u c2).presenceConns
        (connectionsOf (presence_connect (presence_connect st u c1) u c2).db v)
        (Event.presence_update v b) →
      ch ≠ c1) := by
  have hconns : (presence_connect (presence_connect st u c1) u c2).presenceConns
      = dictSet (dictSet st.presenceConns u c1) u c2 := rfl
  have hnoc1 : ∀ k, (k, c1) ∉ dictSet (dictSet st.presenceConns u c1) u c2 := by
    intro k hk
    by_cases hku : k = u
    · subst hku
      exact hne (mem_dictSet_eq_key hk)
    · have h1 := mem_dictSet_ne_key hk hku
      have h2 := mem_dictSet_ne_key h1 hku
      exact hfresh (List.mem_map.mpr ⟨(k, c1), h2, rfl⟩)
  refine ⟨?_, ?_, ?_⟩
  · rw [hconns]
    exact lookup_dictSet _ u c2
  · intro ch hch
    rw [hconns] at hch
    exact mem_dictSet_eq_key hch
  · intro v b ch e h
    rw [hconns] at h
    have := presenceDeliver_channel_registered
      (dictSet (dictSet st.presenceConns u c1) u c2)
      (Event.presence_update v b) _ [] ch e h
    rcases this with habs | ⟨uid, huid⟩
    · simp at habs
    · intro hc
      subst hc
      exact hnoc1 uid huid

/-- Witness for C5: user 1 reconnects from channel 10 to channel 20 on an
initially empty registry. -/
theorem presence_reconnect_evicts_prior_witness :
    (10 : Nat) ≠ 20 ∧
    (presence_connect (presence_connect stScenario5 1 10) 1 20).presenceConns.lookup 1
      = some 20 :=
  ⟨by decide,
    (presence_reconnect_evicts_prior stScenario5 1 10 20 (by decide) (by decide)).1⟩

/-! ## Claim C8 -/

/-- Running a block of `on_transcript` callbacks accumulates exactly the
final fragments in the buffer (in order) and sends every fragment —
interim and final — as a `transcript` event. -/
theorem runChan_fragments (cid : Nat) (frags : List (String × Bool)) :
    ∀ (s : ChanSt) (rest : List ChanEvent),
    runChan cid s (frags.map (fun p => ChanEvent.fragment p.1 p.2) ++ rest) =
      runChan cid { s with
        buffer := s.buffer ++ finalsOf frags,
        sent := s.sent ++ frags.map (fun p => Event.transcript p.1 p.2) } rest := by
  induction frags with
  | nil =>
    intro s rest
    simp [finalsOf]
  | cons p ps ih =>
    intro s rest
    simp only [List.map_cons, List.cons_append]
    rw [show runChan cid s (ChanEvent.fragment p.1 p.2 ::
        (ps.map (fun q => ChanEvent.fragment q.1 q.2) ++ rest)) =
      runChan cid (stepChan cid s (ChanEvent.fragment p.1 p.2))
        (ps.map (fun q => ChanEvent.fragment q.1 q.2) ++ rest) from rfl]
    rw [ih (stepChan cid s (ChanEvent.fragment p.1 p.2)) rest]
    unfold stepChan
    by_cases hf : p.2 = true
    · simp [hf, finalsOf, List.append_assoc]
    · simp [Bool.eq_false_iff.mpr hf, finalsOf, List.append_assoc]

/-- C8: for a session that starts transcription, receives any interleaving
of interim and final fragments, and then either receives a stop or
disconnects abruptly with buffered finals, the persisted transcript for the
call is exactly the final fragments joined in sequence order with single
spaces — interim fragments never contribute — and it replaces whatever
transcript record existed before (`prior` is arbitrary). -/
theorem transcript_flush_joins_finals (cid : Nat) (prior : List (Nat × String))
    (frags : List (String × Bool)) :
    ((runChan cid (chanInit prior)
        (ChanEvent.start :: frags.map (fun p => ChanEvent.fragment p.1 p.2) ++
          [ChanEvent.stop])).transcripts.lookup cid
      = some (String.intercalate " " (finalsOf frags))) ∧
    (finalsOf frags ≠ [] →
      (runChan cid (chanInit prior)
        (ChanEvent.start :: frags.map (fun p => ChanEvent.fragment p.1 p.2) ++
          [ChanEvent.disconnect])).transcripts.lookup cid
      = some (String.intercalate " " (finalsOf frags))) := by
  constructor
  · rw [show runChan cid (chanInit prior)
        (ChanEvent.start :: frags.map (fun p => ChanEvent.fragment p.1 p.2) ++
          [ChanEvent.stop]) =
      runChan cid (stepChan cid (chanInit prior) ChanEvent.start)
        (frags.map (fun p => ChanEvent.fragment p.1 p.2) ++ [ChanEvent.stop]) from rfl]
    rw [runChan_fragments cid frags _ [ChanEvent.stop]]
    simp only [stepChan, chanInit, runChan, saveTranscript]
    simpa using lookup_dictSet prior cid (String.intercalate " " (finalsOf frags))
  · intro hnz
    rw [show runChan cid (chanInit prior)
        (ChanEvent.start :: frags.map (fun p => ChanEvent.fragment p.1 p.2) ++
          [ChanEvent.disconnect]) =
      runChan cid (stepChan cid (chanInit prior) ChanEvent.start)
        (frags.map (fun p => ChanEvent.fragment p.1 p.2) ++
          [ChanEvent.disconnect]) from rfl]
    rw [runChan_fragments cid frags _ [ChanEvent.disconnect]]
    have hne : (finalsOf frags).isEmpty = false := by
      cases h : finalsOf frags with
      | nil => exact absurd h hnz
      | cons a l => rfl
    simp only [stepChan, chanInit, runChan, saveTranscript]
    simp only [List.nil_append, hne, Bool.not_false, Bool.and_self, if_true]
    simpa using lookup_dictSet prior cid (String.intercalate " " (finalsOf frags))

/-- Witness for C8 on the spec's example: both the stop path and the abrupt
disconnect path persist "Hello world", replacing the existing record. -/
theorem transcript_flush_joins_finals_witness :
    finalsOf fragsScenario8 ≠ [] ∧
    (runChan 1 (chanInit [(1, "old")])
      (ChanEvent.start :: fragsScenario8.map (fun p => ChanEvent.fragment p.1 p.2) ++
        [ChanEvent.stop])).transcripts.lookup 1 = some "Hello world" ∧
    (runChan 1 (chanInit [(1, "old")])
      (ChanEvent.start :: fragsScenario8.map (fun p => ChanEvent.fragment p.1 p.2) ++
        [ChanEvent.disconnect])).transcripts.lookup 1 = some "Hello world" := by
  refine ⟨by decide, ?_, ?_⟩
  · exact (transcript_flush_joins_finals 1 [(1, "old")] fragsScenario8).1.trans
      (by decide)
  · exact ((transcript_flush_joins_finals 1 [(1, "old")] fragsScenario8).2
      (by decide)).trans (by decide)

/-! ## Claim C10 -/

/-- C10: (i) the call-channel admission query succeeds exactly when some
call row has the requested id AND the authenticated principal as its
`user_id` (creator) — so the callee and invited participants, whose ids
differ from the creator's, are refused with the policy-violation closure;
(ii) the `ConnectionManager` registry keyed by call id keeps at most one
channel per call: after connecting channel `a` and then channel `b` for the
same call, the registry yields `b` for that call and every registry entry
for that call carries `b`. -/
theorem call_channel_admit_creator_only :
    (∀ (db : DB) (principal call_id : Nat),
      wsCallAdmit db principal call_id = true ↔
        ∃ c ∈ db.calls, c.id = call_id ∧ c.user_id = principal) ∧
    (∀ (conns : List (Nat × Nat)) (call_id a b : Nat),
      (manager_connect (manager_connect conns call_id a) call_id b).lookup call_id
        = some b ∧
      ∀ ch, (call_id, ch) ∈ manager_connect (manager_connect conns call_id a) call_id b
        → ch = b) := by
  constructor
  · intro db principal call_id
    unfold wsCallAdmit
    rw [List.any_eq_true]
    constructor
    · rintro ⟨c, hc, hpred⟩
      rw [Bool.and_eq_true, beq_iff_eq, beq_iff_eq] at hpred
      exact ⟨c, hc, hpred⟩
    · rintro ⟨c, hc, h1, h2⟩
      exact ⟨c, hc, by simp [h1, h2]⟩
  · intro conns call_id a b
    exact ⟨lookup_dictSet _ call_id b, fun ch hch => mem_dictSet_eq_key hch⟩

/-- Witness for C10: creator 1 is admitted to call 5, callee 2 is not, and
reconnecting the channel for call 5 keeps only the later channel. -/
theorem call_channel_admit_creator_only_witness :
    wsCallAdmit dbScenario10 1 5 = true ∧
    wsCallAdmit dbScenario10 2 5 = false ∧
    (manager_connect (manager_connect [] 5 10) 5 20).lookup 5 = some 20 :=
  ⟨(call_channel_admit_creator_only.1 dbScenario10 1 5).mpr
      ⟨{ id := 5, user_id := 1, caller_id := 1, callee_id := 2, room_id := "r",
         status := CallStatus.INITIATED, started_at := some 10, ended_at := none,
         duration_seconds := none }, by decide, rfl, rfl⟩,
    by decide,
    (call_channel_admit_creator_only.2 [] 5 10 20).1⟩

end Backend
